import Mathlib

/-!
Verification of the friction-aware learning platform (LEAP).

This file gives a shallow embedding of the signal-aggregation, friction-scoring
and adaptation pipeline of the repository:

* `src/app.py` — orchestrator (`FrictionAwareLearningPlatform`): friction
  scoring (`_update_friction_scores`), answer checking
  (`_check_answer_flexible`), adaptation selection (`_diagnose_and_adapt`,
  `_get_adaptation_for_friction`) and clearing (`_evaluate_and_clear_adaptation`).
* `src/signals/collector.py` — `SignalCollector.collect_post_step_signals`
  (the strict correctness check and signal construction).
* `src/reasoning/adaptation.py` — `AdaptationMapper.validate_adaptation`,
  `AdaptationApplier.apply_adaptation` and its helpers.
* `src/ui/learning_step.py` — `LearningStepRenderer.apply_adaptation` and
  `LearningStepRenderer._apply_style`.

Python floats are modelled as exact rationals (`ℚ`); all the scoring
arithmetic here is sums, divisions by constants and comparisons, for which
the order-theoretic claims are representation independent.  Timestamps and
the random telemetry simulation are external inputs per the spec (§1, §4.1):
signals carry the already-measured `network_latency` and `device_type`
values.  Python dicts keyed by fixed string keys are modelled as structures.
-/

namespace LEAP

/-! ### String helpers (Python string operations used by the code) -/

/-- Python `str.lower`, character-wise (ASCII case mapping). -/
def pyLower (s : String) : String := String.mk (s.toList.map Char.toLower)

/-- Drop leading and trailing whitespace from a character list. -/
def trimL (l : List Char) : List Char :=
  ((l.dropWhile Char.isWhitespace).reverse.dropWhile Char.isWhitespace).reverse

/-- Python `str.strip` (drop leading and trailing whitespace; the space, tab,
CR and LF characters cover every whitespace occurring in this pipeline). -/
def pyStrip (s : String) : String := String.mk (trimL s.toList)

/-- Does list `p` occur at the head of `l`? -/
def leadMatch : List Char → List Char → Bool
  | [], _ => true
  | _ :: _, [] => false
  | a :: as, b :: bs => a == b && leadMatch as bs

/-- Python substring test `p in l` on character lists (empty `p` always matches). -/
def containsSeq (p : List Char) (l : List Char) : Bool :=
  match l with
  | [] => p.isEmpty
  | c :: rest => leadMatch p (c :: rest) || containsSeq p rest

/-- Python substring test `needle in hay` on strings. -/
def substrB (needle hay : String) : Bool :=
  containsSeq needle.toList hay.toList

/-- Number of (possibly overlapping) positions at which `p` occurs in `l`. -/
def countOccur (p : List Char) (l : List Char) : Nat :=
  match l with
  | [] => if p.isEmpty then 1 else 0
  | c :: rest => (if leadMatch p (c :: rest) then 1 else 0) + countOccur p rest

/-- The ASCII punctuation characters of Python `string.punctuation`
(codes 33–47, 58–64, 91–96, 123–126). -/
def punctuationChars : List Char :=
  [33, 34, 35, 36, 37, 38, 39, 40, 41, 42, 43, 44, 45, 46, 47,
   58, 59, 60, 61, 62, 63, 64, 91, 92, 93, 94, 95, 96,
   123, 124, 125, 126].map Char.ofNat

/-- Python str.translate with a deletion table of string.punctuation:
delete all punctuation characters. -/
def stripPunct (s : String) : String :=
  String.mk (s.toList.filter (fun c => !(punctuationChars.contains c)))

/-- Accumulator loop for whitespace splitting: `cur` holds the characters of
the word in progress, reversed. -/
def pyWordsAux (l : List Char) (cur : List Char) : List String :=
  match l with
  | [] => if cur.isEmpty then [] else [String.mk cur.reverse]
  | c :: rest =>
    if c.isWhitespace then
      if cur.isEmpty then pyWordsAux rest []
      else String.mk cur.reverse :: pyWordsAux rest []
    else pyWordsAux rest (c :: cur)

/-- Python `str.split()` with no argument: split on whitespace runs,
discarding empty words. -/
def pySplitWS (s : String) : List String :=
  pyWordsAux s.toList []

/-- Fuel-indexed splitter: split `l` at each leftmost, non-overlapping
occurrence of the nonempty separator `sep`.  The fuel bounds the recursion
depth; callers supply `l.length + 1`, which is always sufficient. -/
def splitOnAux (sep : List Char) : Nat → List Char → List (List Char)
  | 0, l => [l]
  | fuel + 1, l =>
    match l with
    | [] => [[]]
    | c :: rest =>
      if leadMatch sep (c :: rest) then
        [] :: splitOnAux sep fuel ((c :: rest).drop sep.length)
      else
        match splitOnAux sep fuel rest with
        | [] => [[c]]
        | w :: ws => (c :: w) :: ws

/-- Python `str.split(sep)` for a nonempty separator, on character lists. -/
def splitOnL (sep l : List Char) : List (List Char) :=
  if sep.isEmpty then [l] else splitOnAux sep (l.length + 1) l

/-- `sep.join(pieces)` on character lists. -/
def joinWith (sep : List Char) : List (List Char) → List Char
  | [] => []
  | [w] => w
  | w :: ws => w ++ sep ++ joinWith sep ws

/-- Python `str.split(sep)` on strings (nonempty separator). -/
def pySplitOn (s sep : String) : List String :=
  (splitOnL sep.toList s.toList).map String.mk

/-- Python `sep.join(parts)` on strings. -/
def pyJoin (sep : String) (parts : List String) : String :=
  String.mk (joinWith sep.toList (parts.map String.toList))

/-- Python `str.replace(old, new)` for a nonempty `old` (equivalently,
`new.join(s.split(old))`); every call in the source has a nonempty `old`. -/
def pyReplace (s old new : String) : String :=
  if old.isEmpty then s
  else String.mk (joinWith new.toList (splitOnL old.toList s.toList))

/-- Python `str.startswith(p)`. -/
def pyStartsWith (s p : String) : Bool :=
  leadMatch p.toList s.toList

/-! ### Signal collector (`src/signals/collector.py`)

`collect_post_step_signals` fields that feed the scorer and the state
machine.  Fields that are pure record-keeping for the UI (`timestamp`,
`total_time`, `time_to_first_action`, `response_pattern`,
`session_duration`) are omitted: nothing in the pipeline reads them back. -/

/-- The strict correctness check of `collect_post_step_signals` (line 55):
`str(user_answer).strip().lower() == str(correct_answer).strip().lower()`. -/
def strictCorrect (user_answer correct_answer : String) : Bool :=
  pyLower (pyStrip user_answer) == pyLower (pyStrip correct_answer)

/-- One `InteractionSignal` as stored in `st.session_state.signal_history`. -/
structure Signal where
  step_id : Nat
  step_difficulty : String
  interaction_time : ℚ
  correct : Bool
  hint_used : Bool
  retry_count : Nat
  network_latency : ℚ
  device_type : String
deriving DecidableEq

/-! ### Friction scorer (`FrictionAwareLearningPlatform._update_friction_scores`,
`src/app.py` lines 437–550) -/

/-- The five friction scores, modelling the `friction_scores` dict
(keys "Access friction", "Cognitive load friction",
"Regulation & motivation friction", "Interaction & feedback friction",
"Transfer & meaning friction" in this order). -/
structure FrictionScores where
  access : ℚ
  cognitive : ℚ
  regulation : ℚ
  interaction : ℚ
  transfer : ℚ
deriving DecidableEq

/-- Access-friction indicators (lines 455–462): +1 per signal with
`network_latency > 0.3`, +0.5 per signal on mobile or tablet. -/
def accessIndicators (recent : List Signal) : ℚ :=
  (recent.map (fun s =>
    (if 3/10 < s.network_latency then (1 : ℚ) else 0) +
    (if s.device_type = "mobile" ∨ s.device_type = "tablet" then (1 : ℚ)/2 else 0))).sum

/-- `scores["Access friction"] = min(1.0, access_indicators / 3)` (line 463). -/
def accessScore (recent : List Signal) : ℚ :=
  min 1 (accessIndicators recent / 3)

/-- The strictly-increasing-trend loop of lines 472–476: `increasing` stays
true iff every adjacent pair strictly increases. -/
def strictIncr : List ℚ → Bool
  | a :: b :: rest => (if a < b then true else false) && strictIncr (b :: rest)
  | _ => true

/-- Cognitive-load indicators (lines 465–491): trend and mean-time bonuses
(only when at least two response times), plus 0.3 per error and 0.4 per
hint used. -/
def cognitiveIndicators (recent : List Signal) : ℚ :=
  let response_times := recent.map (fun s => s.interaction_time)
  let trend : ℚ :=
    if 2 ≤ response_times.length then
      (if strictIncr response_times then 3/2 else 0) +
      (if 45 < response_times.sum / (response_times.length : ℚ) then 1 else 0)
    else 0
  let error_count : ℚ := ((recent.filter (fun s => !s.correct)).length : ℚ)
  let hint_count : ℚ := ((recent.filter (fun s => s.hint_used)).length : ℚ)
  trend + error_count * (3/10) + hint_count * (2/5)

/-- `scores["Cognitive load friction"] = min(1.0, cognitive_indicators / 3)` (line 493). -/
def cognitiveScore (recent : List Signal) : ℚ :=
  min 1 (cognitiveIndicators recent / 3)

/-- Python `max` over a nonempty list of response times (line 505). -/
def maxQ : List ℚ → ℚ
  | [] => 0
  | [a] => a
  | a :: b :: rest => max a (maxQ (b :: rest))

/-- Regulation/motivation indicators (lines 495–507): +1 per abandonment
(time < 10 and incorrect), +1 if the maximum time exceeds 90. -/
def regulationIndicators (recent : List Signal) : ℚ :=
  let abandonment : ℚ :=
    ((recent.filter (fun s => decide (s.interaction_time < 10) && !s.correct)).length : ℚ)
  let response_times := recent.map (fun s => s.interaction_time)
  abandonment + (if response_times ≠ [] ∧ 90 < maxQ response_times then 1 else 0)

/-- `scores["Regulation & motivation friction"] = min(1.0, motivation_indicators / 2)` (line 508). -/
def regulationScore (recent : List Signal) : ℚ :=
  min 1 (regulationIndicators recent / 2)

/-- The step ids of the incorrect signals in the window (the multiset
underlying the `step_error_counts` dict of lines 514–518). -/
def errStepIds (recent : List Signal) : List Nat :=
  (recent.filter (fun s => !s.correct)).map (fun s => s.step_id)

/-- Interaction/feedback indicators (lines 510–522): +1 per step (within the
window) that accumulated at least two errors. -/
def interactionIndicators (recent : List Signal) : ℚ :=
  let ids := errStepIds recent
  (((ids.dedup).filter (fun k => decide (2 ≤ ids.count k))).length : ℚ)

/-- `scores["Interaction & feedback friction"] = min(1.0, interaction_indicators / 2)` (line 524). -/
def interactionScore (recent : List Signal) : ℚ :=
  min 1 (interactionIndicators recent / 2)

/-- Transfer/meaning indicators (lines 526–545): over the full history,
+1 if beginner accuracy > 0.7 and intermediate accuracy < 0.4 (requires at
least 4 signals and at least one signal of each difficulty). -/
def transferIndicators (history : List Signal) : ℚ :=
  if 4 ≤ history.length then
    let beg := history.filter (fun s => s.step_difficulty == "beginner")
    let inter := history.filter (fun s => s.step_difficulty == "intermediate")
    if ¬beg.isEmpty ∧ ¬inter.isEmpty then
      let beg_acc : ℚ := ((beg.filter (fun s => s.correct)).length : ℚ) / (beg.length : ℚ)
      let inter_acc : ℚ := ((inter.filter (fun s => s.correct)).length : ℚ) / (inter.length : ℚ)
      if 7/10 < beg_acc ∧ inter_acc < 2/5 then 1 else 0
    else 0
  else 0

/-- `scores["Transfer & meaning friction"] = min(1.0, transfer_indicators)` (line 547). -/
def transferScore (history : List Signal) : ℚ :=
  min 1 (transferIndicators history)

/-- Python `signal_history[-5:]` (line 443): the window of the most recent
(up to) five signals. -/
def recentWindow (history : List Signal) : List Signal :=
  history.drop (history.length - 5)

/-- The full score recomputation of `_update_friction_scores` for a history
with at least two signals: four dimensions over the recent window, transfer
over the entire history. -/
def computeScores (history : List Signal) : FrictionScores :=
  let recent := recentWindow history
  { access := accessScore recent
    cognitive := cognitiveScore recent
    regulation := regulationScore recent
    interaction := interactionScore recent
    transfer := transferScore history }

/-! ### Flexible answer matching
(`FrictionAwareLearningPlatform._check_answer_flexible`, `src/app.py`
lines 400–435) -/

/-- The flexible matcher: empty guard, exact cleaned match, punctuation-free
match, two-common-words overlap, then mutual containment. -/
def checkAnswerFlexible (user_answer correct_answer : String) : Bool :=
  if user_answer == "" || correct_answer == "" then false
  else
    let user_clean := pyLower (pyStrip user_answer)
    let correct_clean := pyLower (pyStrip correct_answer)
    if user_clean == correct_clean then true
    else
      let user_clean2 := stripPunct user_clean
      let correct_clean2 := stripPunct correct_clean
      if user_clean2 == correct_clean2 then true
      else
        let user_words := (pySplitWS user_clean2).dedup
        let correct_words := (pySplitWS correct_clean2).dedup
        if ¬user_words.isEmpty ∧ ¬correct_words.isEmpty ∧
            2 ≤ (user_words.filter (fun w => correct_words.contains w)).length then true
        else if substrB correct_clean2 user_clean2 || substrB user_clean2 correct_clean2 then
          true
        else false

/-! ### Adaptation selection and session state
(`src/app.py`: `_init_session_state`, `_diagnose_and_adapt`,
`_get_adaptation_for_friction`, `_evaluate_and_clear_adaptation`, and the
submission branch of `_render_learning_experience`, lines 280–349) -/

/-- One entry of `st.session_state.adaptation_history`.  An `active` record
is the dict appended by `_diagnose_and_adapt` (its `timestamp` and its
formatted `reason` string, which is derived from `friction_type` and
`friction_score`, are presentation-only and omitted); a `cleared` record is
the dict appended by `_evaluate_and_clear_adaptation`. -/
inductive AdaptRecord where
  | active (friction_type : String) (friction_score : ℚ) (adaptation : String)
  | cleared (adaptation : String) (reason : String)
deriving DecidableEq

/-- The session state owned by the orchestrator.  `hint_counters` and
`step_completion_times` are pure record-keeping that nothing in the pipeline
reads back, and are omitted. -/
structure SessState where
  signal_history : List Signal
  friction_scores : FrictionScores
  current_adaptation : Option String
  adaptation_history : List AdaptRecord
  error_counts : Nat → Nat

/-- The initial session state of `_init_session_state`: empty histories, no
adaptation, all five friction scores 0.0. -/
def initState : SessState :=
  { signal_history := []
    friction_scores := { access := 0, cognitive := 0, regulation := 0, interaction := 0, transfer := 0 }
    current_adaptation := none
    adaptation_history := []
    error_counts := fun _ => 0 }

/-- `_update_friction_scores` (lines 437–550): early return leaves the stored
scores untouched when fewer than two signals exist; otherwise the whole
vector is recomputed and replaces the previous one. -/
def updateFrictionScores (st : SessState) : SessState :=
  if st.signal_history.length < 2 then st
  else { st with friction_scores := computeScores st.signal_history }

/-- The `scores.items()` list in dict insertion order (line 580). -/
def frictionItems (f : FrictionScores) : List (String × ℚ) :=
  [("Access friction", f.access),
   ("Cognitive load friction", f.cognitive),
   ("Regulation & motivation friction", f.regulation),
   ("Interaction & feedback friction", f.interaction),
   ("Transfer & meaning friction", f.transfer)]

/-- Python `max(items, key=score)`: keep the first item, replacing it only
when a later item is strictly greater (ties kept at the earlier item). -/
def maxItemAux (items : List (String × ℚ)) (acc : String × ℚ) : String × ℚ :=
  match items with
  | [] => acc
  | x :: rest => maxItemAux rest (if acc.2 < x.2 then x else acc)

/-- `max(scores.items(), key=lambda x: x[1])` (line 580). -/
def maxFriction (f : FrictionScores) : String × ℚ :=
  match frictionItems f with
  | [] => ("", 0)
  | x :: rest => maxItemAux rest x

/-- The per-friction adaptation catalog of `_get_adaptation_for_friction`
(lines 602–630). -/
def adaptationsFor (friction_type : String) : List String :=
  if friction_type = "Access friction" then
    ["Simplifying layout for better accessibility",
     "Increasing text size and button targets",
     "Optimizing content for different devices"]
  else if friction_type = "Cognitive load friction" then
    ["Breaking complex concepts into smaller parts",
     "Adding more examples and step-by-step explanations",
     "Providing visual aids and diagrams"]
  else if friction_type = "Regulation & motivation friction" then
    ["Adding progress indicators and milestones",
     "Providing encouraging feedback and reinforcement",
     "Breaking sessions into shorter, focused segments"]
  else if friction_type = "Interaction & feedback friction" then
    ["Simplifying interface and reducing cognitive load",
     "Providing clearer instructions and expectations",
     "Adding immediate, actionable feedback"]
  else if friction_type = "Transfer & meaning friction" then
    ["Adding real-world examples and applications",
     "Connecting concepts to practical situations",
     "Providing context and relevance explanations"]
  else []

/-- `_get_adaptation_for_friction` returns the first entry of the list for
the friction type, or `None` (lines 632–636). -/
def getAdaptationForFriction (friction_type : String) : Option String :=
  match adaptationsFor friction_type with
  | [] => none
  | a :: _ => some a

/-- `_diagnose_and_adapt` (lines 571–600): with at least two signals, take
the maximum friction; if it exceeds 0.4 and an adaptation exists for it,
store it as `current_adaptation` and append an active record. -/
def diagnoseAndAdapt (st : SessState) : SessState :=
  if st.signal_history.length < 2 then st
  else
    let m := maxFriction st.friction_scores
    if 2/5 < m.2 then
      match getAdaptationForFriction m.1 with
      | none => st
      | some a =>
        { st with current_adaptation := some a
                  adaptation_history :=
                    st.adaptation_history ++ [AdaptRecord.active m.1 m.2 a] }
    else st

/-- Python `signal_history[-n:]`. -/
def lastN (n : Nat) (l : List Signal) : List Signal :=
  l.drop (l.length - n)

/-- `_evaluate_and_clear_adaptation` (lines 552–569): while an adaptation is
active and at least three signals exist, clear it when the last three
signals contain no error, appending one cleared record with reason
"Improved performance". -/
def evaluateAndClearAdaptation (st : SessState) : SessState :=
  match st.current_adaptation with
  | none => st
  | some a =>
    if 3 ≤ st.signal_history.length then
      if ((lastN 3 st.signal_history).filter (fun s => !s.correct)).length = 0 then
        { st with adaptation_history :=
                    st.adaptation_history ++ [AdaptRecord.cleared a "Improved performance"]
                  current_adaptation := none }
      else st
    else st

/-- The inputs of one answer submission: the user-typed answer and the step
data of `current_step`, plus the externally measured telemetry values that
`collect_post_step_signals` stamps onto the signal (spec §4.1: device and
network values are inputs, not computed by the core). -/
structure StepInput where
  step_id : Nat
  user_answer : String
  correct_answer : String
  interaction_time : ℚ
  hint_used : Bool
  step_difficulty : String
  network_latency : ℚ
  device_type : String

/-- The signal built by `collect_post_step_signals`
(`src/signals/collector.py` lines 44–78): strict correctness, retry count
read from `error_counts`, telemetry values forwarded. -/
def collectPostStepSignal (st : SessState) (inp : StepInput) : Signal :=
  { step_id := inp.step_id
    step_difficulty := inp.step_difficulty
    interaction_time := inp.interaction_time
    correct := strictCorrect inp.user_answer inp.correct_answer
    hint_used := inp.hint_used
    retry_count := st.error_counts inp.step_id
    network_latency := inp.network_latency
    device_type := inp.device_type }

/-- Appending the freshly collected signal to the history (line 303). -/
def appendSignal (st : SessState) (inp : StepInput) : SessState :=
  { st with signal_history := st.signal_history ++ [collectPostStepSignal st inp] }

/-- The error-count increment of the incorrect branch (lines 336–338). -/
def bumpError (st : SessState) (step_id : Nat) : SessState :=
  { st with error_counts :=
      fun k => if k = step_id then st.error_counts k + 1 else st.error_counts k }

/-- The guarded diagnosis call of lines 347–349: diagnose only once at least
two signals exist. -/
def diagnoseIfReady (st : SessState) : SessState :=
  if 2 ≤ st.signal_history.length then diagnoseAndAdapt st else st

/-- One pass of the submission pipeline (`_render_learning_experience`,
lines 280–349): empty answers are rejected before any signal is recorded;
otherwise the signal is appended, the scores are recomputed, and the
flexible matcher decides between the correct branch (evaluate clearing) and
the incorrect branch (bump the error count, then diagnose). -/
def processStep (st : SessState) (inp : StepInput) : SessState :=
  if inp.user_answer = "" then st
  else if checkAnswerFlexible inp.user_answer inp.correct_answer then
    evaluateAndClearAdaptation (updateFrictionScores (appendSignal st inp))
  else
    diagnoseIfReady (bumpError (updateFrictionScores (appendSignal st inp)) inp.step_id)

/-- Processing a sequence of submissions in order. -/
def processSteps (st : SessState) (inps : List StepInput) : SessState :=
  inps.foldl processStep st

/-! ### Adaptation validator
(`AdaptationMapper.validate_adaptation`, `src/reasoning/adaptation.py`
lines 118–152) -/

/-- The substance-altering indicators (lines 131–136). -/
def invalid_indicators : List String :=
  ["simplify", "make easier", "reduce difficulty",
   "remove", "skip", "avoid",
   "change answer", "different solution",
   "permanent", "always", "forever"]

/-- The presentation-focused terms of the environment check (lines 146–150). -/
def environment_terms : List String :=
  ["present", "structure", "pace", "sequence",
   "format", "organize", "timing", "feedback"]

/-- `validate_adaptation(adaptation, original_step)`: reject on any invalid
indicator, otherwise accept exactly when some presentation term occurs.
The Python signature also takes `original_step`, which the body never
reads; it is dropped here. -/
def validate_adaptation (adaptation : String) : Bool :=
  let adaptation_lower := pyLower adaptation
  if invalid_indicators.any (fun ind => substrB ind adaptation_lower) then false
  else environment_terms.any (fun t => substrB t adaptation_lower)

/-! ### Adaptation applier
(`AdaptationApplier`, `src/reasoning/adaptation.py` lines 154–333)

The applier works on the learning-step dict.  The keys it reads or writes
are `content`, `task`, `hints`, `adaptation_applied` and `is_adapted`;
`correct_answer` and `difficulty` are carried through untouched (they are
the fields the claims constrain); the remaining keys (`id`, `title`,
`options`, `video_url`) are never read nor written by the applier and are
omitted.  `task` is an `Option` because `_apply_sequencing_adaptation`
tests the presence of the task key, while `_apply_feedback_adaptation`
writes the key unconditionally. -/

/-- A learning-step dict as seen by the applier. -/
structure LearningStepD where
  content : String
  task : Option String
  correct_answer : String
  difficulty : String
  hints : List String
  adaptation_applied : Option String
  is_adapted : Bool
deriving DecidableEq

/-- The `pacing_elements` list of `_apply_pacing_adaptation` (lines 217–222). -/
def pacingElements : List String :=
  ["\n\n---\n**Progress Checkpoint**",
   "\n\nğŸ• *Estimated time: Take your time with this concept*",
   "\n\nğŸ“Š *You\u0027re making progress!*",
   "\n\nâ¸ï¸ *Pause point: Consider what you\u0027ve learned so far*"]

/-- `_apply_pacing_adaptation` (lines 210–235): append the pacing element
selected by keywords of the adaptation text. -/
def applyPacingAdaptation (step : LearningStepD) (adaptation : String) : LearningStepD :=
  let content := step.content
  let content :=
    if substrB "progress" (pyLower adaptation) then content ++ pacingElements.getD 0 ""
    else if substrB "time" (pyLower adaptation) then content ++ pacingElements.getD 1 ""
    else if substrB "checkpoint" (pyLower adaptation) then content ++ pacingElements.getD 3 ""
    else content ++ pacingElements.getD 2 ""
  { step with content := content }

/-- `_apply_structure_adaptation` (lines 237–259): insert a mid-content
section break for break/chunk adaptations, bullet the content for organize
adaptations. -/
def applyStructureAdaptation (step : LearningStepD) (adaptation : String) : LearningStepD :=
  let content := step.content
  let content :=
    if substrB "break" (pyLower adaptation) || substrB "chunk" (pyLower adaptation) then
      let lines := pySplitOn content "\n"
      if 4 < lines.length then
        let midpoint := lines.length / 2
        pyJoin "\n" (lines.take midpoint ++ ["\n---\n**Key Concept**\n"] ++ lines.drop midpoint)
      else content
    else content
  let content :=
    if substrB "organize" (pyLower adaptation) then
      let c := pyReplace content "\n\n" "\n\nâ€¢ "
      if pyStartsWith c "â€¢ " then c else "â€¢ " ++ c
    else content
  { step with content := content }

/-- `_apply_sequencing_adaptation` (lines 261–279): for example-before
adaptations, prefix the example framing unless the content already contains
both markers, also prefixing the task when the key is present. -/
def applySequencingAdaptation (step : LearningStepD) (adaptation : String) : LearningStepD :=
  if substrB "example" (pyLower adaptation) && substrB "before" (pyLower adaptation) then
    if substrB "Example:" step.content && substrB "Your Task:" step.content then step
    else
      match step.task with
      | some t =>
        { step with content := "First, let\u0027s look at an example:\n\n" ++ step.content,
                    task := some ("Now try applying what you learned:\n\n" ++ t) }
      | none => { step with content := "First, let\u0027s look at an example:\n\n" ++ step.content }
  else step

/-- `_apply_feedback_adaptation` (lines 281–294): append a self-check tip or
a hint reminder to the task prompt. -/
def applyFeedbackAdaptation (step : LearningStepD) (adaptation : String) : LearningStepD :=
  let task := step.task.getD ""
  let task :=
    if substrB "confirm" (pyLower adaptation) then
      task ++ "\n\nğŸ’¡ *Tip: Before submitting, double-check your reasoning.*"
    else if substrB "hint" (pyLower adaptation) then
      if ¬step.hints.isEmpty then
        task ++ "\n\nğŸ” *Remember: You can use hints if you get stuck.*"
      else task
    else task
  { step with task := some task }

/-- `_apply_contextual_adaptation` (lines 296–308): prepend the relevance
framing for relevance/application adaptations. -/
def applyContextualAdaptation (step : LearningStepD) (adaptation : String) : LearningStepD :=
  if substrB "relevance" (pyLower adaptation) || substrB "application" (pyLower adaptation) then
    { step with content :=
        "\n\n**Why this matters:** This concept is useful for solving real-world problems " ++
        "like data analysis, automation, and building applications." ++ "\n\n" ++ step.content }
  else step

/-- The `style_markers` dict of `_apply_explanation_style` (lines 315–320);
unknown styles, and the explicit "none" entry, map to the empty marker. -/
def styleMarker (style : String) : String :=
  if style = "analogies" then "\n\nğŸ”— **Think of it like this:** "
  else if style = "step-by-step" then "\n\nğŸ“ **Step-by-step:** "
  else if style = "examples" then "\n\nğŸ¯ **For example:** "
  else ""

/-- The `task_marker` literal of line 325. -/
def taskMarker : String := "**Your Task:**"

/-- `_apply_explanation_style` (lines 310–333): when the marker is nonempty
and not already present, insert it before the task marker (or append it). -/
def applyExplanationStyle (step : LearningStepD) (style : String) : LearningStepD :=
  let content := step.content
  let marker := styleMarker style
  let content :=
    if marker ≠ "" ∧ ¬substrB marker content then
      if substrB taskMarker content then
        let parts := pySplitOn content taskMarker
        (parts.headD "") ++ marker ++ taskMarker ++ pyJoin taskMarker (parts.drop 1)
      else content ++ marker
    else content
  { step with content := content }

/-- The keyword-family dispatch of `apply_adaptation` (lines 177–198): the
first matching family wins, in the fixed order pacing → structure →
sequencing → feedback → contextual. -/
def applyFamilyAdaptation (adapted : LearningStepD) (adaptation : String) : LearningStepD :=
  let adaptation_lower := pyLower adaptation
  if ["pace", "time", "progress", "checkpoint"].any (fun kw => substrB kw adaptation_lower) then
    applyPacingAdaptation adapted adaptation
  else if ["structure", "break", "organize", "chunk"].any (fun kw => substrB kw adaptation_lower) then
    applyStructureAdaptation adapted adaptation
  else if ["sequence", "order", "arrange"].any (fun kw => substrB kw adaptation_lower) then
    applySequencingAdaptation adapted adaptation
  else if ["feedback", "hint", "confirm"].any (fun kw => substrB kw adaptation_lower) then
    applyFeedbackAdaptation adapted adaptation
  else if ["context", "frame", "relevance", "application"].any (fun kw => substrB kw adaptation_lower) then
    applyContextualAdaptation adapted adaptation
  else adapted

/-- `AdaptationApplier.apply_adaptation` (lines 157–208): shallow-copy the
step, apply the first matching keyword family, apply the explanation style
when the argument is truthy, then mark the result adapted.  This is the
functional copy-on-adapt reading of the Python: all writes go to the copy
`adapted`, never to the original dict. -/
def apply_adaptation (learning_step : LearningStepD) (adaptation : String)
    (explanation_style : Option String) : LearningStepD :=
  let adapted := applyFamilyAdaptation learning_step adaptation
  let adapted :=
    if explanation_style.getD "" ≠ "" then
      applyExplanationStyle adapted (explanation_style.getD "")
    else adapted
  { adapted with adaptation_applied := some adaptation, is_adapted := true }

/-! ### Renderer-side style application
(`LearningStepRenderer._apply_style`, `src/ui/learning_step.py`
lines 73–92) -/

/-- The `style_additions` dict of `_apply_style` (lines 79–83). -/
def styleAdditions (style : String) : String :=
  if style = "analogies" then
    "\n\n🔗 **Think of it like this**: This concept is similar to learning a new language - you start with basic vocabulary before forming complex sentences."
  else if style = "step-by-step" then
    "\n\n📝 **Step-by-step breakdown**:\n1. Start with the basic concept\n2. Understand each component\n3. See how they work together\n4. Apply the knowledge"
  else if style = "examples" then
    "\n\n🎯 **Practical example**: For instance, in real life, this works like... (insert relevant example based on content)"
  else ""

/-- `LearningStepRenderer._apply_style` (lines 73–92): unconditionally append
the style addition for a truthy, non-"none" style, then append the
adaptation note for a truthy adaptation. -/
def rendererApplyStyle (content : String) (adaptation : String)
    (style : Option String) : String :=
  let adapted := content
  let adapted :=
    if style.getD "" ≠ "" ∧ style.getD "" ≠ "none" then
      adapted ++ styleAdditions (style.getD "")
    else adapted
  let adapted :=
    if adaptation ≠ "" then
      adapted ++ "\n\n✨ **Learning Support**: " ++ adaptation
    else adapted
  adapted

/-! ### Concrete scenarios and range predicate -/

/-- All five stored friction scores lie in the closed interval [0, 1]. -/
def scoresInRange (f : FrictionScores) : Prop :=
  (0 ≤ f.access ∧ f.access ≤ 1) ∧
  (0 ≤ f.cognitive ∧ f.cognitive ≤ 1) ∧
  (0 ≤ f.regulation ∧ f.regulation ≤ 1) ∧
  (0 ≤ f.interaction ∧ f.interaction ≤ 1) ∧
  (0 ≤ f.transfer ∧ f.transfer ≤ 1)

instance (f : FrictionScores) : Decidable (scoresInRange f) := by
  unfold scoresInRange
  infer_instance

/-- A beginner-step signal with the given interaction time and correctness
and neutral telemetry (desktop, zero latency, no hint). -/
def sigT (t : ℚ) (c : Bool) : Signal :=
  { step_id := 0, step_difficulty := "beginner", interaction_time := t,
    correct := c, hint_used := false, retry_count := 0,
    network_latency := 0, device_type := "desktop" }

/-- A submission on step 0 (beginner) whose answer is wrong under both
correctness checks, taking `t` seconds, on a desktop with low latency and
no hint used. -/
def inpIncorrect (t : ℚ) : StepInput :=
  { step_id := 0, user_answer := "q", correct_answer := "zz",
    interaction_time := t, hint_used := false, step_difficulty := "beginner",
    network_latency := 0, device_type := "desktop" }

/-- A submission on step `i` (beginner) whose answer is correct under the
strict check (hence under the flexible matcher as well). -/
def inpCorrect (i : Nat) (t : ℚ) : StepInput :=
  { step_id := i, user_answer := "ok", correct_answer := "ok",
    interaction_time := t, hint_used := false, step_difficulty := "beginner",
    network_latency := 0, device_type := "desktop" }

/-- The session state after the two-signal scenario of spec §8:
two incorrect answers on step 0 (beginner) taking 4s and 6s. -/
def stateC4 : SessState :=
  processSteps initState [inpIncorrect 4, inpIncorrect 6]

/-- The scenario extended by a third incorrect answer on the same step. -/
def stateC6 : SessState :=
  processSteps initState [inpIncorrect 4, inpIncorrect 6, inpIncorrect 8]

/-! ## Theorems -/

theorem min1_range {x : ℚ} (hx : 0 ≤ x) : 0 ≤ min 1 x ∧ min 1 x ≤ 1 :=
  ⟨le_min zero_le_one hx, min_le_left 1 x⟩

theorem accessIndicators_nonneg (recent : List Signal) : 0 ≤ accessIndicators recent := by
  apply List.sum_nonneg
  intro a ha
  obtain ⟨s, -, rfl⟩ := List.mem_map.mp ha
  split_ifs <;> norm_num

theorem cognitiveIndicators_nonneg (recent : List Signal) : 0 ≤ cognitiveIndicators recent := by
  simp only [cognitiveIndicators]
  have he : (0 : ℚ) ≤ ((recent.filter (fun s => !s.correct)).length : ℚ) := by positivity
  have hh : (0 : ℚ) ≤ ((recent.filter (fun s => s.hint_used)).length : ℚ) := by positivity
  split_ifs <;> nlinarith

theorem regulationIndicators_nonneg (recent : List Signal) : 0 ≤ regulationIndicators recent := by
  simp only [regulationIndicators]
  have ha : (0 : ℚ) ≤
      ((recent.filter (fun s => decide (s.interaction_time < 10) && !s.correct)).length : ℚ) := by
    positivity
  split_ifs <;> linarith

theorem interactionIndicators_nonneg (recent : List Signal) : 0 ≤ interactionIndicators recent := by
  simp only [interactionIndicators]
  positivity

theorem transferIndicators_nonneg (history : List Signal) : 0 ≤ transferIndicators history := by
  simp only [transferIndicators]
  split_ifs <;> norm_num

theorem computeScores_range (history : List Signal) : scoresInRange (computeScores history) := by
  refine ⟨?_, ?_, ?_, ?_, ?_⟩ <;>
    simp only [computeScores, accessScore, cognitiveScore, regulationScore, interactionScore,
      transferScore]
  · exact min1_range (div_nonneg (accessIndicators_nonneg _) (by norm_num))
  · exact min1_range (div_nonneg (cognitiveIndicators_nonneg _) (by norm_num))
  · exact min1_range (div_nonneg (regulationIndicators_nonneg _) (by norm_num))
  · exact min1_range (div_nonneg (interactionIndicators_nonneg _) (by norm_num))
  · exact min1_range (transferIndicators_nonneg _)

/-- C1: for every session state whose stored friction scores are in range
(as they are from initialization onwards), after `_update_friction_scores`
runs on any signal history, each of the five scores stored in
`friction_scores` lies in the closed interval [0, 1]. -/
theorem C1_friction_scores_clamped (st : SessState)
    (h : scoresInRange st.friction_scores) :
    scoresInRange (updateFrictionScores st).friction_scores := by
  unfold updateFrictionScores
  split
  · exact h
  · exact computeScores_range st.signal_history

/-- Witness for C1 at the initial session state. -/
theorem C1_friction_scores_clamped_witness :
    scoresInRange initState.friction_scores ∧
    scoresInRange (updateFrictionScores initState).friction_scores :=
  ⟨by decide, C1_friction_scores_clamped initState (by decide)⟩

/-- C8: `validate_adaptation` returns false whenever the lowercased text
contains a substance-altering indicator, returns true only when the text
contains a presentation-focused term, and decides the two spec examples as
stated. -/
theorem C8_validator_behavior :
    (∀ t : String,
      (invalid_indicators.any (fun ind => substrB ind (pyLower t))) = true →
      validate_adaptation t = false) ∧
    (∀ t : String, validate_adaptation t = true →
      (environment_terms.any (fun e => substrB e (pyLower t))) = true) ∧
    validate_adaptation "Simplify the explanation and reduce difficulty" = false ∧
    validate_adaptation "Add progress indicators and restructure pacing" = true := by
  refine ⟨?_, ?_, by decide, by decide⟩
  · intro t h
    unfold validate_adaptation
    simp [h]
  · intro t h
    by_cases hb : (invalid_indicators.any (fun ind => substrB ind (pyLower t))) = true
    · rw [show validate_adaptation t = false from by simp [validate_adaptation, hb]] at h
      exact absurd h (by simp)
    · rw [Bool.not_eq_true] at hb
      simpa [validate_adaptation, hb] using h

/-- Witness for C8 at concrete adaptation texts. -/
theorem C8_validator_behavior_witness :
    validate_adaptation "please remove this step" = false ∧
    (environment_terms.any
      (fun e => substrB e (pyLower "Add progress indicators and restructure pacing"))) = true :=
  ⟨C8_validator_behavior.1 "please remove this step" (by decide),
   C8_validator_behavior.2.1 "Add progress indicators and restructure pacing" (by decide)⟩

theorem strictImpliesFlexible (u c : String) (hu : u ≠ "") (hc : c ≠ "")
    (h : strictCorrect u c = true) : checkAnswerFlexible u c = true := by
  have hu' : (u == "") = false := beq_eq_false_iff_ne.mpr hu
  have hc' : (c == "") = false := beq_eq_false_iff_ne.mpr hc
  unfold checkAnswerFlexible
  unfold strictCorrect at h
  simp only [hu', hc', Bool.or_self, Bool.false_or, h, if_true, if_false]
  simp [h]

/-- C10: on non-empty answers, whenever the strict correctness check of the
Signal Collector accepts, the flexible matcher of the orchestrator
`_check_answer_flexible` accepts as well; hence the two checks can disagree
only with the flexible matcher accepting and the strict check rejecting. -/
theorem C10_strict_implies_flexible (u c : String) (hu : u ≠ "") (hc : c ≠ "")
    (h : strictCorrect u c = true) : checkAnswerFlexible u c = true :=
  strictImpliesFlexible u c hu hc h

/-- Witness for C10 at a concrete answer pair. -/
theorem C10_strict_implies_flexible_witness :
    checkAnswerFlexible " Paris " "paris" = true :=
  C10_strict_implies_flexible " Paris " "paris" (by decide) (by decide) (by decide)

theorem errStepIds_append_incorrect (w : List Signal) (s : Signal) (h : s.correct = false) :
    errStepIds (w ++ [s]) = errStepIds w ++ [s.step_id] := by
  simp [errStepIds, h]

theorem dedup_filter_count_le (l : List Nat) (k : Nat) :
    ((l.dedup).filter (fun x => decide (2 ≤ l.count x))).length ≤
    (((l ++ [k]).dedup).filter (fun x => decide (2 ≤ (l ++ [k]).count x))).length := by
  apply List.Subperm.length_le
  apply List.Nodup.subperm ((List.nodup_dedup l).filter _)
  intro x hx
  simp only [List.mem_filter, List.mem_dedup, decide_eq_true_eq] at hx ⊢
  refine ⟨List.mem_append_left _ hx.1, le_trans hx.2 ?_⟩
  rw [List.count_append]
  exact Nat.le_add_right _ _

/-- C5 (amended): appending one incorrect signal to a window never decreases
`InteractionFeedbackFriction`; the analogous statement for
`CognitiveLoadFriction` is refuted by the counterexample window below. -/
theorem C5_interaction_monotone (w : List Signal) (s : Signal) (h : s.correct = false) :
    interactionScore w ≤ interactionScore (w ++ [s]) := by
  simp only [interactionScore, interactionIndicators]
  rw [errStepIds_append_incorrect w s h]
  have hn := dedup_filter_count_le (errStepIds w) s.step_id
  have hq : ((((errStepIds w).dedup).filter
        (fun x => decide (2 ≤ (errStepIds w).count x))).length : ℚ) ≤
      (((((errStepIds w) ++ [s.step_id]).dedup).filter
        (fun x => decide (2 ≤ ((errStepIds w) ++ [s.step_id]).count x))).length : ℚ) := by
    exact_mod_cast hn
  exact min_le_min le_rfl (by linarith)

/-- Witness for the amended C5 at a concrete window and signal. -/
theorem C5_interaction_monotone_witness :
    (sigT 5 false).correct = false ∧
    interactionScore [sigT 5 false] ≤ interactionScore ([sigT 5 false] ++ [sigT 5 false]) :=
  ⟨by decide, C5_interaction_monotone [sigT 5 false] (sigT 5 false) (by decide)⟩

unseal Rat.add Rat.mul Rat.inv Rat.sub in
/-- C5 counterexample: appending the incorrect signal (time 0) to the window
[(correct, 50s), (correct, 60s)] strictly decreases `CognitiveLoadFriction`
(the append breaks the strictly-increasing-times bonus and drops the mean
below 45s): the score falls from 5/6 to 1/10. -/
theorem C5_cognitive_not_monotone :
    (sigT 0 false).correct = false ∧
    cognitiveScore [sigT 50 true, sigT 60 true] = 5/6 ∧
    cognitiveScore ([sigT 50 true, sigT 60 true] ++ [sigT 0 false]) = 1/10 ∧
    cognitiveScore ([sigT 50 true, sigT 60 true] ++ [sigT 0 false]) <
      cognitiveScore [sigT 50 true, sigT 60 true] := by
  refine ⟨by decide, by decide, by decide, by decide⟩

theorem countOccur_pos_contains (p : List Char) (l : List Char)
    (h : 1 ≤ countOccur p l) : containsSeq p l = true := by
  induction l with
  | nil =>
    unfold countOccur at h
    unfold containsSeq
    split_ifs at h with hp
    · exact hp
    · exact absurd h (by norm_num)
  | cons c rest ih =>
    unfold countOccur at h
    unfold containsSeq
    cases hm : leadMatch p (c :: rest) with
    | true => simp [hm]
    | false =>
      rw [hm] at h
      have h' : 1 ≤ countOccur p rest := by simpa using h
      simp [hm, ih h']

/-- C9 (amended): `AdaptationApplier._apply_explanation_style` is idempotent
on the style annotation: on content already carrying the marker exactly
once, reapplying the style leaves exactly one occurrence.  The renderer-side
`LearningStepRenderer._apply_style`, by contrast, appends its annotation
unconditionally. -/
theorem C9_style_apply_idempotent (s : LearningStepD) (style : String)
    (_hst : style = "analogies" ∨ style = "step-by-step" ∨ style = "examples")
    (h1 : countOccur (styleMarker style).toList s.content.toList = 1) :
    countOccur (styleMarker style).toList
      ((applyExplanationStyle s style).content).toList = 1 := by
  have hsub : containsSeq (styleMarker style).toList s.content.toList = true :=
    countOccur_pos_contains _ _ (by omega)
  simp only [applyExplanationStyle]
  rw [if_neg]
  · exact h1
  · exact fun hcond => hcond.2 (by simpa [substrB] using hsub)

/-- Witness for the amended C9: content consisting of the analogies marker
itself is left with exactly one occurrence. -/
theorem C9_style_apply_idempotent_witness :
    countOccur (styleMarker "analogies").toList
      ((applyExplanationStyle
        { content := styleMarker "analogies", task := none, correct_answer := "a",
          difficulty := "beginner", hints := [], adaptation_applied := none,
          is_adapted := false } "analogies").content).toList = 1 :=
  C9_style_apply_idempotent _ "analogies" (Or.inl rfl) (by decide)

set_option maxRecDepth 80000 in
/-- C9 counterexample: applying the renderer-side style annotation twice to
already-adapted content duplicates it — after one application the analogies
addition occurs once, after a second application it occurs twice, not once. -/
theorem C9_renderer_style_duplicates :
    countOccur (styleAdditions "analogies").toList
      (rendererApplyStyle "Base concept." "Add tips" (some "analogies")).toList = 1 ∧
    countOccur (styleAdditions "analogies").toList
      (rendererApplyStyle
        (rendererApplyStyle "Base concept." "Add tips" (some "analogies"))
        "Add tips" (some "analogies")).toList = 2 :=
  ⟨by decide, by decide⟩

theorem applyPacing_correct (step : LearningStepD) (ad : String) :
    (applyPacingAdaptation step ad).correct_answer = step.correct_answer := rfl

theorem applyPacing_difficulty (step : LearningStepD) (ad : String) :
    (applyPacingAdaptation step ad).difficulty = step.difficulty := rfl

theorem applyStructure_correct (step : LearningStepD) (ad : String) :
    (applyStructureAdaptation step ad).correct_answer = step.correct_answer := rfl

theorem applyStructure_difficulty (step : LearningStepD) (ad : String) :
    (applyStructureAdaptation step ad).difficulty = step.difficulty := rfl

theorem applySequencing_correct (step : LearningStepD) (ad : String) :
    (applySequencingAdaptation step ad).correct_answer = step.correct_answer := by
  unfold applySequencingAdaptation
  repeat' split
  all_goals rfl

theorem applySequencing_difficulty (step : LearningStepD) (ad : String) :
    (applySequencingAdaptation step ad).difficulty = step.difficulty := by
  unfold applySequencingAdaptation
  repeat' split
  all_goals rfl

theorem applyFeedback_correct (step : LearningStepD) (ad : String) :
    (applyFeedbackAdaptation step ad).correct_answer = step.correct_answer := rfl

theorem applyFeedback_difficulty (step : LearningStepD) (ad : String) :
    (applyFeedbackAdaptation step ad).difficulty = step.difficulty := rfl

theorem applyContextual_correct (step : LearningStepD) (ad : String) :
    (applyContextualAdaptation step ad).correct_answer = step.correct_answer := by
  unfold applyContextualAdaptation
  split <;> rfl

theorem applyContextual_difficulty (step : LearningStepD) (ad : String) :
    (applyContextualAdaptation step ad).difficulty = step.difficulty := by
  unfold applyContextualAdaptation
  split <;> rfl

theorem applyStyle_correct (step : LearningStepD) (style : String) :
    (applyExplanationStyle step style).correct_answer = step.correct_answer := rfl

theorem applyStyle_difficulty (step : LearningStepD) (style : String) :
    (applyExplanationStyle step style).difficulty = step.difficulty := rfl

theorem applyFamily_correct (step : LearningStepD) (ad : String) :
    (applyFamilyAdaptation step ad).correct_answer = step.correct_answer := by
  unfold applyFamilyAdaptation
  dsimp only
  split_ifs <;>
    simp [applyPacing_correct, applyStructure_correct, applySequencing_correct,
      applyFeedback_correct, applyContextual_correct]

theorem applyFamily_difficulty (step : LearningStepD) (ad : String) :
    (applyFamilyAdaptation step ad).difficulty = step.difficulty := by
  unfold applyFamilyAdaptation
  dsimp only
  split_ifs <;>
    simp [applyPacing_difficulty, applyStructure_difficulty, applySequencing_difficulty,
      applyFeedback_difficulty, applyContextual_difficulty]

/-- C3: `AdaptationApplier.apply_adaptation` is a pure copy-on-adapt
transformation (the embedding returns a new record and cannot mutate its
argument); the result carries `is_adapted = true` and the applied adaptation
text, and its `correct_answer` and `difficulty` are identical to those of
the input, for every step, adaptation text and optional explanation style. -/
theorem C3_apply_adaptation_frame (s : LearningStepD) (ad : String)
    (style : Option String) :
    (apply_adaptation s ad style).correct_answer = s.correct_answer ∧
    (apply_adaptation s ad style).difficulty = s.difficulty ∧
    (apply_adaptation s ad style).is_adapted = true ∧
    (apply_adaptation s ad style).adaptation_applied = some ad := by
  unfold apply_adaptation
  dsimp only
  split_ifs <;>
    simp [applyFamily_correct, applyFamily_difficulty, applyStyle_correct,
      applyStyle_difficulty]

theorem appendSignal_cur (st : SessState) (inp : StepInput) :
    (appendSignal st inp).current_adaptation = st.current_adaptation := rfl

theorem appendSignal_hist (st : SessState) (inp : StepInput) :
    (appendSignal st inp).adaptation_history = st.adaptation_history := rfl

theorem appendSignal_sig (st : SessState) (inp : StepInput) :
    (appendSignal st inp).signal_history = st.signal_history ++ [collectPostStepSignal st inp] :=
  rfl

theorem updateFS_cur (st : SessState) :
    (updateFrictionScores st).current_adaptation = st.current_adaptation := by
  unfold updateFrictionScores
  split <;> rfl

theorem updateFS_hist (st : SessState) :
    (updateFrictionScores st).adaptation_history = st.adaptation_history := by
  unfold updateFrictionScores
  split <;> rfl

theorem updateFS_sig (st : SessState) :
    (updateFrictionScores st).signal_history = st.signal_history := by
  unfold updateFrictionScores
  split <;> rfl

theorem collectSignal_correct (st : SessState) (inp : StepInput) :
    (collectPostStepSignal st inp).correct =
      strictCorrect inp.user_answer inp.correct_answer := rfl

theorem clear_of_none (st : SessState) (h : st.current_adaptation = none) :
    evaluateAndClearAdaptation st = st := by
  unfold evaluateAndClearAdaptation
  rw [h]

theorem clear_of_qualified (st : SessState) (a : String)
    (h : st.current_adaptation = some a)
    (h3 : 3 ≤ st.signal_history.length)
    (hall : ((lastN 3 st.signal_history).filter (fun s => !s.correct)).length = 0) :
    evaluateAndClearAdaptation st =
      { st with adaptation_history :=
                  st.adaptation_history ++ [AdaptRecord.cleared a "Improved performance"]
                current_adaptation := none } := by
  unfold evaluateAndClearAdaptation
  rw [h]
  dsimp only
  rw [if_pos h3, if_pos hall]

theorem clear_of_unqualified (st : SessState) (a : String)
    (h : st.current_adaptation = some a)
    (hnot : ¬(3 ≤ st.signal_history.length ∧
      ((lastN 3 st.signal_history).filter (fun s => !s.correct)).length = 0)) :
    evaluateAndClearAdaptation st = st := by
  unfold evaluateAndClearAdaptation
  rw [h]
  dsimp only
  by_cases h3 : 3 ≤ st.signal_history.length
  · rw [if_pos h3, if_neg (fun hf => hnot ⟨h3, hf⟩)]
  · rw [if_neg h3]

theorem processStep_correct_branch (st : SessState) (inp : StepInput)
    (hne : inp.user_answer ≠ "") (hce : inp.correct_answer ≠ "")
    (hc : strictCorrect inp.user_answer inp.correct_answer = true) :
    processStep st inp =
      evaluateAndClearAdaptation (updateFrictionScores (appendSignal st inp)) := by
  unfold processStep
  rw [if_neg hne, if_pos (strictImpliesFlexible _ _ hne hce hc)]

theorem correctStep_dichotomy (st : SessState) (inp : StepInput) (a : String)
    (ha : st.current_adaptation = some a)
    (hne : inp.user_answer ≠ "") (hce : inp.correct_answer ≠ "")
    (hc : strictCorrect inp.user_answer inp.correct_answer = true) :
    ((processStep st inp).current_adaptation = some a ∧
     (processStep st inp).adaptation_history = st.adaptation_history ∧
     (processStep st inp).signal_history =
       st.signal_history ++ [collectPostStepSignal st inp]) ∨
    ((processStep st inp).current_adaptation = none ∧
     (processStep st inp).adaptation_history =
       st.adaptation_history ++ [AdaptRecord.cleared a "Improved performance"] ∧
     (processStep st inp).signal_history =
       st.signal_history ++ [collectPostStepSignal st inp]) := by
  rw [processStep_correct_branch st inp hne hce hc]
  have hcur : (updateFrictionScores (appendSignal st inp)).current_adaptation = some a := by
    rw [updateFS_cur, appendSignal_cur, ha]
  by_cases hq : 3 ≤ (updateFrictionScores (appendSignal st inp)).signal_history.length ∧
      ((lastN 3 (updateFrictionScores (appendSignal st inp)).signal_history).filter
        (fun s => !s.correct)).length = 0
  · right
    rw [clear_of_qualified _ a hcur hq.1 hq.2]
    refine ⟨rfl, ?_, ?_⟩
    · simp [updateFS_hist, appendSignal_hist]
    · simp [updateFS_sig, appendSignal_sig]
  · left
    rw [clear_of_unqualified _ a hcur hq]
    exact ⟨hcur, by rw [updateFS_hist, appendSignal_hist],
      by rw [updateFS_sig, appendSignal_sig]⟩

theorem correctStep_standard (st : SessState) (inp : StepInput)
    (ha : st.current_adaptation = none)
    (hne : inp.user_answer ≠ "") (hce : inp.correct_answer ≠ "")
    (hc : strictCorrect inp.user_answer inp.correct_answer = true) :
    (processStep st inp).current_adaptation = none ∧
    (processStep st inp).adaptation_history = st.adaptation_history ∧
    (processStep st inp).signal_history =
      st.signal_history ++ [collectPostStepSignal st inp] := by
  rw [processStep_correct_branch st inp hne hce hc]
  rw [clear_of_none _ (by rw [updateFS_cur, appendSignal_cur, ha])]
  exact ⟨by rw [updateFS_cur, appendSignal_cur, ha],
    by rw [updateFS_hist, appendSignal_hist],
    by rw [updateFS_sig, appendSignal_sig]⟩

/-- C7: from any session state with an active adaptation `a`, processing
three consecutive correct answers — answers correct under the strict check
recorded in the signals, which the clearing condition inspects — always
clears: `current_adaptation` becomes `none` and exactly one cleared record
with reason "Improved performance" (for `a`) is appended to the adaptation
history, whether the clearing fires at the first, second or third correct
answer. -/
theorem C7_three_correct_clear (st : SessState) (a : String) (i1 i2 i3 : StepInput)
    (ha : st.current_adaptation = some a)
    (h1n : i1.user_answer ≠ "") (h1c : i1.correct_answer ≠ "")
    (h1 : strictCorrect i1.user_answer i1.correct_answer = true)
    (h2n : i2.user_answer ≠ "") (h2c : i2.correct_answer ≠ "")
    (h2 : strictCorrect i2.user_answer i2.correct_answer = true)
    (h3n : i3.user_answer ≠ "") (h3c : i3.correct_answer ≠ "")
    (h3 : strictCorrect i3.user_answer i3.correct_answer = true) :
    (processSteps st [i1, i2, i3]).current_adaptation = none ∧
    (processSteps st [i1, i2, i3]).adaptation_history =
      st.adaptation_history ++ [AdaptRecord.cleared a "Improved performance"] := by
  show (processStep (processStep (processStep st i1) i2) i3).current_adaptation = none ∧
    (processStep (processStep (processStep st i1) i2) i3).adaptation_history =
      st.adaptation_history ++ [AdaptRecord.cleared a "Improved performance"]
  rcases correctStep_dichotomy st i1 a ha h1n h1c h1 with ⟨c1, hh1, hs1⟩ | ⟨c1, hh1, hs1⟩
  · rcases correctStep_dichotomy _ i2 a c1 h2n h2c h2 with ⟨c2, hh2, hs2⟩ | ⟨c2, hh2, hs2⟩
    · -- not yet cleared after two correct answers: the third must clear
      rw [processStep_correct_branch _ i3 h3n h3c h3]
      have hcur3 : (updateFrictionScores
          (appendSignal (processStep (processStep st i1) i2) i3)).current_adaptation =
            some a := by
        rw [updateFS_cur, appendSignal_cur, c2]
      have hsig3 : (updateFrictionScores
          (appendSignal (processStep (processStep st i1) i2) i3)).signal_history =
            st.signal_history ++
              [collectPostStepSignal st i1,
               collectPostStepSignal (processStep st i1) i2,
               collectPostStepSignal (processStep (processStep st i1) i2) i3] := by
        rw [updateFS_sig, appendSignal_sig, hs2, hs1]
        simp
      have h3len : 3 ≤ (updateFrictionScores
          (appendSignal (processStep (processStep st i1) i2) i3)).signal_history.length := by
        rw [hsig3]
        simp
      have hall : (((lastN 3 (updateFrictionScores
          (appendSignal (processStep (processStep st i1) i2) i3)).signal_history)).filter
            (fun s => !s.correct)).length = 0 := by
        rw [hsig3]
        unfold lastN
        rw [List.drop_left' (by simp)]
        simp [collectSignal_correct, h1, h2, h3]
      rw [clear_of_qualified _ a hcur3 h3len hall]
      refine ⟨rfl, ?_⟩
      show (updateFrictionScores
          (appendSignal (processStep (processStep st i1) i2) i3)).adaptation_history ++
            [AdaptRecord.cleared a "Improved performance"] =
          st.adaptation_history ++ [AdaptRecord.cleared a "Improved performance"]
      rw [updateFS_hist, appendSignal_hist, hh2, hh1]
    · -- cleared at the second answer
      have n3 := correctStep_standard _ i3 c2 h3n h3c h3
      refine ⟨n3.1, ?_⟩
      rw [n3.2.1, hh2, hh1]
  · -- cleared at the first answer
    have n2 := correctStep_standard _ i2 c1 h2n h2c h2
    have n3 := correctStep_standard _ i3 n2.1 h3n h3c h3
    refine ⟨n3.1, ?_⟩
    rw [n3.2.1, n2.2.1, hh1]

unseal Rat.add Rat.mul Rat.inv Rat.sub in
/-- Witness for C7: from the two-error scenario state (which is Adapting),
three concrete strictly-correct answers clear the adaptation and append
exactly one cleared record. -/
theorem C7_three_correct_clear_witness :
    (processSteps stateC4 [inpCorrect 0 5, inpCorrect 1 5, inpCorrect 2 5]).current_adaptation =
      none ∧
    (processSteps stateC4 [inpCorrect 0 5, inpCorrect 1 5, inpCorrect 2 5]).adaptation_history =
      stateC4.adaptation_history ++
        [AdaptRecord.cleared "Adding progress indicators and milestones" "Improved performance"] :=
  C7_three_correct_clear stateC4 "Adding progress indicators and milestones"
    (inpCorrect 0 5) (inpCorrect 1 5) (inpCorrect 2 5) (by decide)
    (by decide) (by decide) (by decide)
    (by decide) (by decide) (by decide)
    (by decide) (by decide) (by decide)

/-- C6 (amended): while an adaptation is active, a correct answer whose
resulting last-3 window still contains an error leaves `currentAdaptation`
and `adaptationHistory` unchanged; re-selection does occur on further
incorrect answers, which overwrite `currentAdaptation` and append another
active record, as the concrete three-error scenario shows. -/
theorem C6_adapting_persists_on_correct (st : SessState) (inp : StepInput) (a : String)
    (ha : st.current_adaptation = some a)
    (hne : inp.user_answer ≠ "") (hce : inp.correct_answer ≠ "")
    (hc : strictCorrect inp.user_answer inp.correct_answer = true)
    (hbad : ((lastN 3 (st.signal_history ++ [collectPostStepSignal st inp])).filter
      (fun s => !s.correct)).length ≠ 0) :
    (processStep st inp).current_adaptation = some a ∧
    (processStep st inp).adaptation_history = st.adaptation_history := by
  rw [processStep_correct_branch st inp hne hce hc]
  have hcur : (updateFrictionScores (appendSignal st inp)).current_adaptation = some a := by
    rw [updateFS_cur, appendSignal_cur, ha]
  rw [clear_of_unqualified _ a hcur
    (fun hq => hbad (by
      have := hq.2
      rw [updateFS_sig, appendSignal_sig] at this
      exact this))]
  exact ⟨hcur, by rw [updateFS_hist, appendSignal_hist]⟩

unseal Rat.add Rat.mul Rat.inv Rat.sub in
/-- Witness for the amended C6: from the two-error scenario state, one
correct answer (window still contains the two errors) keeps the same
adaptation and appends nothing. -/
theorem C6_adapting_persists_on_correct_witness :
    (processStep stateC4 (inpCorrect 2 5)).current_adaptation =
      some "Adding progress indicators and milestones" ∧
    (processStep stateC4 (inpCorrect 2 5)).adaptation_history =
      stateC4.adaptation_history :=
  C6_adapting_persists_on_correct stateC4 (inpCorrect 2 5)
    "Adding progress indicators and milestones" (by decide) (by decide) (by decide)
    (by decide) (by decide)

unseal Rat.add Rat.mul Rat.inv Rat.sub in
/-- C6 counterexample: in the scenario state the session is Adapting with
one active record, yet a further incorrect answer appends a second active
record to `adaptationHistory` (with `currentAdaptation` re-stored), so new
records are appended while an adaptation is active and performance has not
qualified for clearing. -/
theorem C6_reselects_while_adapting :
    stateC4.current_adaptation = some "Adding progress indicators and milestones" ∧
    stateC4.adaptation_history.length = 1 ∧
    stateC6.adaptation_history.length = 2 ∧
    stateC6.adaptation_history.getD 1 (AdaptRecord.cleared "" "") =
      AdaptRecord.active "Regulation & motivation friction" 1
        "Adding progress indicators and milestones" :=
  ⟨by decide, by decide, by decide, by decide⟩

unseal Rat.add Rat.mul Rat.inv Rat.sub in
/-- C4 counterexample: in the two-signal scenario the recomputed scores are
not "mostly ≈ 0" — CognitiveLoadFriction is 0.7 and
RegulationMotivationFriction is 1.0 — and the triggered adaptation targets
Regulation & motivation friction, not Interaction & feedback friction
(whose score is indeed 0.5). -/
theorem C4_not_interaction_targeted :
    stateC4.friction_scores.interaction = 1/2 ∧
    stateC4.friction_scores.cognitive = 7/10 ∧
    stateC4.friction_scores.regulation = 1 ∧
    (maxFriction stateC4.friction_scores).1 ≠ "Interaction & feedback friction" ∧
    stateC4.current_adaptation ≠ some "Simplifying interface and reducing cognitive load" :=
  ⟨by decide, by decide, by decide, by decide, by decide⟩

unseal Rat.add Rat.mul Rat.inv Rat.sub in
/-- C4 (amended): for the scenario of two incorrect beginner answers on
step 0 taking 4s and 6s (desktop, low latency, no hints), the recomputed
scores are Access 0, CognitiveLoad 0.7, RegulationMotivation 1.0,
InteractionFeedback 0.5, TransferMeaning 0; the first incorrect answer does
not adapt, and the second triggers the Standard-to-Adapting transition with
the Regulation-&-motivation-targeted adaptation text. -/
theorem C4_scenario_behavior :
    (processSteps initState [inpIncorrect 4]).current_adaptation = none ∧
    stateC4.friction_scores =
      { access := 0, cognitive := 7/10, regulation := 1, interaction := 1/2, transfer := 0 } ∧
    stateC4.current_adaptation = some "Adding progress indicators and milestones" ∧
    stateC4.adaptation_history =
      [AdaptRecord.active "Regulation & motivation friction" 1
        "Adding progress indicators and milestones"] :=
  ⟨by decide, by decide, by decide, by decide⟩

unseal Rat.add Rat.mul Rat.inv Rat.sub in
/-- C2 counterexample: the pipeline reaches a state whose stored
`currentAdaptation` fails `validate_adaptation` — the Validator gate is
never invoked by the pipeline. -/
theorem C2_gate_violated :
    stateC4.current_adaptation = some "Adding progress indicators and milestones" ∧
    validate_adaptation "Adding progress indicators and milestones" = false :=
  ⟨by decide, by decide⟩

/-- C2 (amended): `_diagnose_and_adapt` stores the selected adaptation
without invoking `validate_adaptation`; in fact every adaptation text the
rule-based selector can produce (the first catalog entry of each friction
type) fails the Validator. -/
theorem C2_selector_output_fails_validator (ft a : String)
    (h : getAdaptationForFriction ft = some a) :
    validate_adaptation a = false := by
  unfold getAdaptationForFriction adaptationsFor at h
  split_ifs at h <;> simp only [Option.some.injEq] at h
  · rw [← h]; decide
  · rw [← h]; decide
  · rw [← h]; decide
  · rw [← h]; decide
  · rw [← h]; decide

/-- Witness for the amended C2 at the Access friction type. -/
theorem C2_selector_output_fails_validator_witness :
    validate_adaptation "Simplifying layout for better accessibility" = false :=
  C2_selector_output_fails_validator "Access friction"
    "Simplifying layout for better accessibility" (by decide)

end LEAP
